import Mathlib

/-!
Verification of the policy SDK's verdict-encoding layer.

The source (`src/src/lib.rs`) provides three verdict builders
(`accept_request`, `mutate_request`, `reject_request`), a generic settings
validation dispatcher (`validate_settings`), and a protocol-version
responder (`protocol_version_guest`).  All of them serialize a record with
`serde_json` and return the bytes as a `wapc_guest::CallResult`
(`Result<Vec<u8>, Box<dyn Error>>`).

Embedding choices:

* The outbound wire payload is represented by its JSON document (`Json`
  below) rather than by a byte string: the spec fixes the wire contract at
  the level of field names and structure ("structured, self-describing
  text-based format, field names preserved"), and the byte rendering is
  done by the external `serde_json` crate.  Serialization of the record
  types is total at this level, matching the fact that `serde_json::to_vec`
  cannot fail on these field types.
* `CallResult` becomes `Except String Json`.
* The inbound payload of `validate_settings` stays a byte list
  (`List Nat`, each entry one byte), because the source renders it with
  `String::from_utf8_lossy` inside the decode-failure diagnostic; the
  lossy UTF-8 decoder is embedded faithfully (`utf8Lossy`).
* `validate_settings::<T>` is generic over `T: DeserializeOwned +
  Validatable`; the embedding takes the two capabilities as explicit
  function arguments `fromSlice` (serde decoding of `T`) and `validate`
  (the `Validatable` trait method `validate() -> Result<(), String>`).
-/

/-- A JSON document, the model of `serde_json::Value`.  Numbers are modelled
as integers; objects are association lists preserving field order. -/
inductive Json where
  | null : Json
  | bool (b : Bool) : Json
  | num (n : Int) : Json
  | str (s : String) : Json
  | arr (elems : List Json) : Json
  | obj (fields : List (String × Json)) : Json

/-- Modelled from the spec: the outbound verdict record `ValidationResponse`
(module `response` is not under `src/`; `src/src/lib.rs` constructs it field
by field).  Fields per spec section 3: `accepted` required, the rest
optional.  `code` is a `u16` in the source; no arithmetic is ever performed
on it, so it is modelled as `Nat`.  `audit_annotations` is a string-to-string
map, modelled as an association list. -/
structure ValidationResponse where
  accepted : Bool
  message : Option String
  code : Option Nat
  mutated_object : Option Json
  audit_annotations : Option (List (String × String))
  warnings : Option (List String)

/-- Modelled from the spec: the settings verdict record
`SettingsValidationResponse` (module `settings` is not under `src/`).
Fields: `valid` boolean, `message` optional text. -/
structure SettingsValidationResponse where
  valid : Bool
  message : Option String

/-- Modelled from the spec: the protocol version enumeration (module
`metadata` is not under `src/`).  A fixed set of two known versions. -/
inductive ProtocolVersion where
  | V1 : ProtocolVersion
  | V2 : ProtocolVersion
deriving DecidableEq

/-- Modelled from the spec: the compiled-in default protocol version is the
latest; the in-repo test `try_protocol_version_guest` pins it to `V2`. -/
def ProtocolVersion.default : ProtocolVersion := ProtocolVersion.V2

/-- Serialization of `ProtocolVersion` (its serde derive is outside `src/`):
one fixed JSON value per variant. -/
def ProtocolVersion.toJson : ProtocolVersion → Json
  | ProtocolVersion.V1 => Json.str "v1"
  | ProtocolVersion.V2 => Json.str "v2"

/-- Deserialization of `ProtocolVersion`, inverse of
`ProtocolVersion.toJson` on its range. -/
def ProtocolVersion.fromJson : Json → Except String ProtocolVersion
  | Json.str "v1" => Except.ok ProtocolVersion.V1
  | Json.str "v2" => Except.ok ProtocolVersion.V2
  | _ => Except.error "unknown protocol version"

/-- An optional serialized field: serde's `skip_serializing_if =
"Option::is_none"` behaviour the spec describes as "optional fields
absent". -/
def optField (name : String) : Option Json → List (String × Json)
  | some v => [(name, v)]
  | none => []

/-- A string-to-string map as a JSON object. -/
def stringMapToJson (m : List (String × String)) : Json :=
  Json.obj (m.map (fun kv => (kv.1, Json.str kv.2)))

/-- Serialization of `ValidationResponse` (`serde_json::to_vec` at the
document level): field names fixed by the wire contract of spec section 6,
optional fields absent when `None`. -/
def validationResponseToJson (r : ValidationResponse) : Json :=
  Json.obj ([("accepted", Json.bool r.accepted)]
    ++ optField "message" (r.message.map Json.str)
    ++ optField "code" (r.code.map (fun c => Json.num (Int.ofNat c)))
    ++ optField "mutated_object" r.mutated_object
    ++ optField "audit_annotations" (r.audit_annotations.map stringMapToJson)
    ++ optField "warnings" (r.warnings.map (fun w => Json.arr (w.map Json.str))))

/-- Serialization of `SettingsValidationResponse`: `valid` required,
`message` absent when `None`. -/
def settingsValidationResponseToJson (r : SettingsValidationResponse) : Json :=
  Json.obj ([("valid", Json.bool r.valid)]
    ++ optField "message" (r.message.map Json.str))

/-- Field lookup in a JSON object (first occurrence). -/
def Json.getField (j : Json) (k : String) : Option Json :=
  match j with
  | Json.obj fields => (fields.find? (fun kv => kv.1 == k)).map (fun kv => kv.2)
  | _ => none

/-- Decode the values of a JSON object as strings, keeping the keys. -/
def decodeStrPairs : List (String × Json) → Except String (List (String × String))
  | [] => Except.ok []
  | (k, Json.str s) :: rest =>
      (decodeStrPairs rest).map (fun t => (k, s) :: t)
  | _ => Except.error "expected string value"

/-- Decode a list of JSON values as strings. -/
def decodeStrs : List Json → Except String (List String)
  | [] => Except.ok []
  | Json.str s :: rest => (decodeStrs rest).map (fun t => s :: t)
  | _ => Except.error "expected string"

/-- Decode an optional string field. -/
def decodeOptStr : Option Json → Except String (Option String)
  | none => Except.ok none
  | some (Json.str s) => Except.ok (some s)
  | some _ => Except.error "expected string"

/-- Decode an optional unsigned number field. -/
def decodeOptNat : Option Json → Except String (Option Nat)
  | none => Except.ok none
  | some (Json.num (Int.ofNat n)) => Except.ok (some n)
  | some (Json.num (Int.negSucc _)) => Except.error "expected unsigned number"
  | some _ => Except.error "expected number"

/-- Decode an optional string-to-string map field. -/
def decodeOptStrMap : Option Json → Except String (Option (List (String × String)))
  | none => Except.ok none
  | some (Json.obj fields) => (decodeStrPairs fields).map some
  | some _ => Except.error "expected object"

/-- Decode an optional string-sequence field. -/
def decodeOptStrList : Option Json → Except String (Option (List String))
  | none => Except.ok none
  | some (Json.arr elems) => (decodeStrs elems).map some
  | some _ => Except.error "expected array"

/-- Deserialization of `ValidationResponse` from its JSON document, the
host-side reading of the wire contract: `accepted` required, optional fields
read when present, `mutated_object` kept as a raw document. -/
def validationResponseFromJson (j : Json) : Except String ValidationResponse :=
  match j.getField "accepted" with
  | some (Json.bool b) =>
    match decodeOptStr (j.getField "message") with
    | Except.error e => Except.error e
    | Except.ok message =>
      match decodeOptNat (j.getField "code") with
      | Except.error e => Except.error e
      | Except.ok code =>
        match decodeOptStrMap (j.getField "audit_annotations") with
        | Except.error e => Except.error e
        | Except.ok audit_annotations =>
          match decodeOptStrList (j.getField "warnings") with
          | Except.error e => Except.error e
          | Except.ok warnings =>
            Except.ok { accepted := b, message := message, code := code,
                        mutated_object := j.getField "mutated_object",
                        audit_annotations := audit_annotations,
                        warnings := warnings }
  | _ => Except.error "missing or malformed accepted field"

/-- Deserialization of `SettingsValidationResponse` from its JSON
document. -/
def settingsValidationResponseFromJson (j : Json) :
    Except String SettingsValidationResponse :=
  match j.getField "valid" with
  | some (Json.bool b) =>
    match decodeOptStr (j.getField "message") with
    | Except.error e => Except.error e
    | Except.ok message => Except.ok { valid := b, message := message }
  | _ => Except.error "missing or malformed valid field"

/-- `accept_request` from `src/src/lib.rs`: serialize a `ValidationResponse`
with `accepted: true` and every optional field `None`. -/
def accept_request : Except String Json :=
  Except.ok (validationResponseToJson
    { accepted := true, message := none, code := none, mutated_object := none,
      audit_annotations := none, warnings := none })

/-- `mutate_request` from `src/src/lib.rs`: serialize a `ValidationResponse`
with `accepted: true`, `mutated_object: Some(mutated_object)`, every other
optional field `None`. -/
def mutate_request (mutated_object : Json) : Except String Json :=
  Except.ok (validationResponseToJson
    { accepted := true, message := none, code := none,
      mutated_object := some mutated_object,
      audit_annotations := none, warnings := none })

/-- `reject_request` from `src/src/lib.rs`: serialize a `ValidationResponse`
with `accepted: false`, `mutated_object: None`, and the four argument fields
carried through. -/
def reject_request (message : Option String) (code : Option Nat)
    (audit_annotations : Option (List (String × String)))
    (warnings : Option (List String)) : Except String Json :=
  Except.ok (validationResponseToJson
    { accepted := false, mutated_object := none, message := message,
      code := code, audit_annotations := audit_annotations,
      warnings := warnings })

/-- `protocol_version_guest` from `src/src/lib.rs`: ignore the payload and
serialize `ProtocolVersion::default()`. -/
def protocol_version_guest (_payload : List Nat) : Except String Json :=
  Except.ok (ProtocolVersion.toJson ProtocolVersion.default)

/-- U+FFFD, the replacement character emitted by lossy UTF-8 decoding. -/
def replacementChar : Char := '�'

/-- A UTF-8 continuation byte, `0x80..=0xBF`. -/
def isCont (c : Nat) : Bool := 0x80 ≤ c && c ≤ 0xBF

/-- Valid range of the first continuation byte after a three-byte lead
(excludes overlong encodings after `0xE0` and surrogates after `0xED`). -/
def cont3ok (b c : Nat) : Bool :=
  if b = 0xE0 then 0xA0 ≤ c && c ≤ 0xBF
  else if b = 0xED then 0x80 ≤ c && c ≤ 0x9F
  else isCont c

/-- Valid range of the first continuation byte after a four-byte lead
(excludes overlong encodings after `0xF0` and values beyond U+10FFFF after
`0xF4`). -/
def cont4ok (b c : Nat) : Bool :=
  if b = 0xF0 then 0x90 ≤ c && c ≤ 0xBF
  else if b = 0xF4 then 0x80 ≤ c && c ≤ 0x8F
  else isCont c

/-- UTF-8 decoding of a byte list into a stream of pieces: `some c` for a
well-formed scalar-value encoding, `none` for each decoding error.  Errors
follow the maximal-subpart convention of `String::from_utf8_lossy`: an
ill-formed sequence is dropped up to (not including) the first byte that
could start a new sequence, and yields a single error piece. -/
def utf8Pieces : List Nat → List (Option Char)
  | [] => []
  | b :: rest =>
    if b < 0x80 then some (Char.ofNat b) :: utf8Pieces rest
    else if b < 0xC2 then none :: utf8Pieces rest
    else if b ≤ 0xDF then
      match rest with
      | [] => [none]
      | c :: rest2 =>
        if isCont c then
          some (Char.ofNat ((b - 0xC0) * 64 + (c - 0x80))) :: utf8Pieces rest2
        else none :: utf8Pieces (c :: rest2)
    else if b ≤ 0xEF then
      match rest with
      | [] => [none]
      | [c1] => if cont3ok b c1 then [none] else none :: utf8Pieces [c1]
      | c1 :: c2 :: rest2 =>
        if cont3ok b c1 then
          if isCont c2 then
            some (Char.ofNat ((b - 0xE0) * 4096 + (c1 - 0x80) * 64 + (c2 - 0x80)))
              :: utf8Pieces rest2
          else none :: utf8Pieces (c2 :: rest2)
        else none :: utf8Pieces (c1 :: c2 :: rest2)
    else if b ≤ 0xF4 then
      match rest with
      | [] => [none]
      | [c1] => if cont4ok b c1 then [none] else none :: utf8Pieces [c1]
      | [c1, c2] =>
        if cont4ok b c1 then
          if isCont c2 then [none] else none :: utf8Pieces [c2]
        else none :: utf8Pieces [c1, c2]
      | c1 :: c2 :: c3 :: rest2 =>
        if cont4ok b c1 then
          if isCont c2 then
            if isCont c3 then
              some (Char.ofNat ((b - 0xF0) * 262144 + (c1 - 0x80) * 4096
                + (c2 - 0x80) * 64 + (c3 - 0x80))) :: utf8Pieces rest2
            else none :: utf8Pieces (c3 :: rest2)
          else none :: utf8Pieces (c2 :: c3 :: rest2)
        else none :: utf8Pieces (c1 :: c2 :: c3 :: rest2)
    else none :: utf8Pieces rest

/-- `String::from_utf8_lossy`: every error piece becomes U+FFFD. -/
def utf8Lossy (payload : List Nat) : String :=
  String.mk ((utf8Pieces payload).map (fun p => p.getD replacementChar))

/-- Strict UTF-8 decoding (`str::from_utf8`): succeeds exactly when no piece
is an error. -/
def utf8Strict (payload : List Nat) : Option String :=
  if (utf8Pieces payload).all Option.isSome then
    some (String.mk ((utf8Pieces payload).filterMap id))
  else none

/-- `validate_settings::<T>` from `src/src/lib.rs`, generic over the serde
decoding of `T` (`fromSlice`, for `T: DeserializeOwned`) and the
`Validatable` capability (`validate`, for `fn validate(&self) ->
Result<(), String>`).  A decode failure becomes an invocation failure whose
message interpolates the lossy-decoded payload and the decode error
(rendered as a string, standing for the source's debug formatting);
otherwise the result of `validate` is mapped onto a serialized
`SettingsValidationResponse`. -/
def validate_settings {T : Type} (fromSlice : List Nat → Except String T)
    (validate : T → Except String Unit) (payload : List Nat) :
    Except String Json :=
  match fromSlice payload with
  | Except.error e =>
      Except.error ("Error decoding validation payload " ++ utf8Lossy payload
        ++ ": " ++ e)
  | Except.ok s =>
    match validate s with
    | Except.ok _ =>
        Except.ok (settingsValidationResponseToJson
          { valid := true, message := none })
    | Except.error e =>
        Except.ok (settingsValidationResponseToJson
          { valid := false, message := some e })

theorem decodeStrPairs_map (a : List (String × String)) :
    decodeStrPairs (a.map (fun kv => (kv.1, Json.str kv.2))) = Except.ok a := by
  induction a with
  | nil => rfl
  | cons kv t ih =>
    obtain ⟨k, v⟩ := kv
    simp [decodeStrPairs, ih, Except.map]

theorem decodeStrs_map (w : List String) :
    decodeStrs (w.map Json.str) = Except.ok w := by
  induction w with
  | nil => rfl
  | cons s t ih => simp [decodeStrs, ih, Except.map]

theorem validationResponse_roundtrip (r : ValidationResponse) :
    validationResponseFromJson (validationResponseToJson r) = Except.ok r := by
  obtain ⟨b, m, c, o, a, w⟩ := r
  rcases m with _ | m <;> rcases c with _ | c <;> rcases o with _ | o <;>
    rcases a with _ | a <;> rcases w with _ | w <;>
    simp [validationResponseToJson, validationResponseFromJson, Json.getField,
      optField, stringMapToJson, decodeOptStr, decodeOptNat, decodeOptStrMap,
      decodeOptStrList, decodeStrPairs_map, decodeStrs_map, Except.map]

theorem map_getD_of_all_isSome (l : List (Option Char))
    (h : l.all Option.isSome = true) :
    l.map (fun p => p.getD replacementChar) = l.filterMap id := by
  induction l with
  | nil => rfl
  | cons x t ih =>
    simp only [List.all_cons, Bool.and_eq_true] at h
    cases x with
    | none => simp at h
    | some c => simp [ih h.2]

theorem utf8Lossy_of_strict (p : List Nat) (s : String)
    (h : utf8Strict p = some s) : utf8Lossy p = s := by
  unfold utf8Strict at h
  split at h
  · rename_i hall
    cases h
    exact congrArg String.mk (map_getD_of_all_isSome (utf8Pieces p) hall)
  · cases h

theorem replacement_mem_lossy (p : List Nat) (h : utf8Strict p = none) :
    replacementChar ∈ (utf8Lossy p).data := by
  unfold utf8Strict at h
  split at h
  · cases h
  · rename_i hall
    rw [List.all_eq_true] at hall
    push_neg at hall
    obtain ⟨x, hx, hns⟩ := hall
    have hxn : x = none := by cases x <;> simp_all
    subst hxn
    exact List.mem_map.mpr ⟨none, hx, rfl⟩

/-- C1: a payload that cannot be decoded into the configuration type makes
`validate_settings` return an invocation-level failure (never a serialized
`SettingsValidationResponse`), whose diagnostic message contains both the
payload rendered as text (lossy UTF-8) and the underlying decode error. -/
theorem validate_settings_decode_failure {T : Type}
    (fromSlice : List Nat → Except String T)
    (validate : T → Except String Unit) (payload : List Nat) (e : String)
    (h : fromSlice payload = Except.error e) :
    ∃ pre mid, validate_settings fromSlice validate payload =
      Except.error (pre ++ utf8Lossy payload ++ mid ++ e) := by
  refine ⟨"Error decoding validation payload ", ": ", ?_⟩
  unfold validate_settings
  rw [h]

theorem validate_settings_decode_failure_witness :
    ∃ pre mid,
      validate_settings (fun _ => (Except.error "EOF" : Except String Unit))
        (fun _ => Except.ok ()) [0x61, 0x62] =
        Except.error (pre ++ utf8Lossy [0x61, 0x62] ++ mid ++ "EOF") :=
  validate_settings_decode_failure
    (fun _ => (Except.error "EOF" : Except String Unit))
    (fun _ => Except.ok ()) [0x61, 0x62] "EOF" rfl

/-- C2: for a payload that decodes successfully, `validate_settings` maps
`validate() = Ok(())` to a successfully returned serialized
`SettingsValidationResponse` with `valid = true`, `message = None`, and
`validate() = Err(m)` to `valid = false`, `message = Some(m)`. -/
theorem validate_settings_maps_validate {T : Type}
    (fromSlice : List Nat → Except String T)
    (validate : T → Except String Unit) (payload : List Nat) (s : T)
    (h : fromSlice payload = Except.ok s) :
    (validate s = Except.ok () →
      validate_settings fromSlice validate payload =
        Except.ok (settingsValidationResponseToJson
          { valid := true, message := none })) ∧
    (∀ m, validate s = Except.error m →
      validate_settings fromSlice validate payload =
        Except.ok (settingsValidationResponseToJson
          { valid := false, message := some m })) := by
  constructor
  · intro hv
    unfold validate_settings
    rw [h]
    dsimp only
    rw [hv]
  · intro m hv
    unfold validate_settings
    rw [h]
    dsimp only
    rw [hv]

theorem validate_settings_maps_validate_witness :
    validate_settings (fun _ => (Except.ok true : Except String Bool))
      (fun b => if b then Except.ok () else Except.error "bad") [] =
      Except.ok (settingsValidationResponseToJson
        { valid := true, message := none }) :=
  (validate_settings_maps_validate
    (fun _ => (Except.ok true : Except String Bool))
    (fun b => if b then Except.ok () else Except.error "bad") [] true rfl).1 rfl

/-- C3: for every document `D`, decoding the successful output of
`mutate_request D` yields a `ValidationResponse` with `accepted = true`,
`mutated_object` structurally equal to `D`, and `message`, `code`,
`audit_annotations`, `warnings` all absent. -/
theorem mutate_request_roundtrip (D : Json) :
    ∃ j, mutate_request D = Except.ok j ∧
      validationResponseFromJson j = Except.ok
        { accepted := true, message := none, code := none,
          mutated_object := some D, audit_annotations := none,
          warnings := none } :=
  ⟨validationResponseToJson
    { accepted := true, message := none, code := none,
      mutated_object := some D, audit_annotations := none, warnings := none },
   rfl, validationResponse_roundtrip _⟩

/-- C4: for every combination of the four independent optional arguments,
decoding the output of `reject_request` yields `accepted = false`,
`mutated_object` absent, and exactly the supplied optional fields carried
through verbatim; all four may be `none` simultaneously. -/
theorem reject_request_roundtrip (message : Option String) (code : Option Nat)
    (audit_annotations : Option (List (String × String)))
    (warnings : Option (List String)) :
    ∃ j, reject_request message code audit_annotations warnings =
        Except.ok j ∧
      validationResponseFromJson j = Except.ok
        { accepted := false, message := message, code := code,
          mutated_object := none, audit_annotations := audit_annotations,
          warnings := warnings } :=
  ⟨validationResponseToJson
    { accepted := false, message := message, code := code,
      mutated_object := none, audit_annotations := audit_annotations,
      warnings := warnings },
   rfl, validationResponse_roundtrip _⟩

/-- C5: `accept_request` takes no input, always succeeds, and its output
decodes to `accepted = true` with `message`, `code`, `mutated_object`,
`audit_annotations`, `warnings` all absent. -/
theorem accept_request_roundtrip :
    ∃ j, accept_request = Except.ok j ∧
      validationResponseFromJson j = Except.ok
        { accepted := true, message := none, code := none,
          mutated_object := none, audit_annotations := none,
          warnings := none } :=
  ⟨validationResponseToJson
    { accepted := true, message := none, code := none, mutated_object := none,
      audit_annotations := none, warnings := none },
   rfl, rfl⟩

/-- C6: `protocol_version_guest` is independent of its input — any two
payloads give the same output — and every output decodes to the single
fixed default `ProtocolVersion` value. -/
theorem protocol_version_guest_constant :
    (∀ p1 p2 : List Nat,
      protocol_version_guest p1 = protocol_version_guest p2) ∧
    (∀ p : List Nat, ∃ j, protocol_version_guest p = Except.ok j ∧
      ProtocolVersion.fromJson j = Except.ok ProtocolVersion.default) :=
  ⟨fun _ _ => rfl,
   fun _ => ⟨ProtocolVersion.toJson ProtocolVersion.default, rfl, rfl⟩⟩

/-- The spec's invariant on the verdict record: acceptance carries no
message or code, and a mutated object may be present only on acceptance. -/
def responseInvariant (r : ValidationResponse) : Prop :=
  (r.accepted = true → r.message = none ∧ r.code = none) ∧
  (r.mutated_object ≠ none → r.accepted = true) ∧
  (r.accepted = false → r.mutated_object = none)

/-- C7: every `ValidationResponse` produced by `accept_request`,
`mutate_request` or `reject_request` satisfies the invariant: acceptance
implies `message` and `code` absent, `mutated_object` present only on
acceptance, rejection implies `mutated_object` absent. -/
theorem builders_satisfy_invariant :
    (∀ j r, accept_request = Except.ok j →
      validationResponseFromJson j = Except.ok r → responseInvariant r) ∧
    (∀ D j r, mutate_request D = Except.ok j →
      validationResponseFromJson j = Except.ok r → responseInvariant r) ∧
    (∀ m c a w j r, reject_request m c a w = Except.ok j →
      validationResponseFromJson j = Except.ok r → responseInvariant r) := by
  refine ⟨?_, ?_, ?_⟩
  · intro j r h1 h2
    simp only [accept_request, Except.ok.injEq] at h1
    subst h1
    rw [validationResponse_roundtrip] at h2
    cases h2
    exact ⟨fun _ => ⟨rfl, rfl⟩, fun h => by simp at h, fun _ => rfl⟩
  · intro D j r h1 h2
    simp only [mutate_request, Except.ok.injEq] at h1
    subst h1
    rw [validationResponse_roundtrip] at h2
    cases h2
    exact ⟨fun _ => ⟨rfl, rfl⟩, fun _ => rfl, fun h => by cases h⟩
  · intro m c a w j r h1 h2
    simp only [reject_request, Except.ok.injEq] at h1
    subst h1
    rw [validationResponse_roundtrip] at h2
    cases h2
    refine ⟨fun h => ?_, fun h => ?_, fun _ => rfl⟩
    · cases h
    · exact absurd rfl h

theorem builders_satisfy_invariant_witness :
    responseInvariant
      { accepted := false, message := none, code := none,
        mutated_object := none, audit_annotations := none,
        warnings := none } :=
  builders_satisfy_invariant.2.2 none none none none
    (validationResponseToJson
      { accepted := false, message := none, code := none,
        mutated_object := none, audit_annotations := none, warnings := none })
    { accepted := false, message := none, code := none,
      mutated_object := none, audit_annotations := none, warnings := none }
    rfl rfl

/-- C8: domain-level outcomes never propagate as invocation failures —
`reject_request` succeeds for every argument combination,
`validate_settings` succeeds for every payload that decodes whether
`validate` passes or fails, and an invocation failure of
`validate_settings` can only come from a decode failure. -/
theorem domain_outcomes_not_failures :
    (∀ m c a w, ∃ j, reject_request m c a w = Except.ok j) ∧
    (∀ (T : Type) (fromSlice : List Nat → Except String T)
      (validate : T → Except String Unit) (p : List Nat) (s : T),
      fromSlice p = Except.ok s →
      ∃ j, validate_settings fromSlice validate p = Except.ok j) ∧
    (∀ (T : Type) (fromSlice : List Nat → Except String T)
      (validate : T → Except String Unit) (p : List Nat) (msg : String),
      validate_settings fromSlice validate p = Except.error msg →
      ∃ e, fromSlice p = Except.error e) := by
  refine ⟨fun m c a w => ⟨_, rfl⟩, ?_, ?_⟩
  · intro T fromSlice validate p s h
    unfold validate_settings
    rw [h]
    dsimp only
    cases validate s with
    | ok u => exact ⟨_, rfl⟩
    | error e => exact ⟨_, rfl⟩
  · intro T fromSlice validate p msg h
    cases hf : fromSlice p with
    | ok s =>
      unfold validate_settings at h
      rw [hf] at h
      dsimp only at h
      cases hv : validate s with
      | ok u => rw [hv] at h; exact absurd h (by simp)
      | error e => rw [hv] at h; exact absurd h (by simp)
    | error e => exact ⟨e, rfl⟩

theorem domain_outcomes_not_failures_witness :
    ∃ j, validate_settings (fun _ => (Except.ok 0 : Except String Nat))
      (fun _ => Except.error "rejected") [] = Except.ok j :=
  domain_outcomes_not_failures.2.1 Nat
    (fun _ => (Except.ok 0 : Except String Nat))
    (fun _ => Except.error "rejected") [] 0 rfl

/-- C9: the decode-failure diagnostic renders the payload with lossy UTF-8
conversion — a valid-UTF-8 payload appears in the diagnostic exactly as its
text, and a payload with invalid UTF-8 byte sequences contributes U+FFFD
replacement characters. -/
theorem decode_diagnostic_lossy {T : Type}
    (fromSlice : List Nat → Except String T)
    (validate : T → Except String Unit) (payload : List Nat) (e : String)
    (h : fromSlice payload = Except.error e) :
    ∃ msg, validate_settings fromSlice validate payload = Except.error msg ∧
      (∀ s, utf8Strict payload = some s → ∃ a b, msg = a ++ s ++ b) ∧
      (utf8Strict payload = none → replacementChar ∈ msg.data) := by
  refine ⟨"Error decoding validation payload " ++ utf8Lossy payload
    ++ ": " ++ e, ?_, ?_, ?_⟩
  · unfold validate_settings
    rw [h]
  · intro s hs
    refine ⟨"Error decoding validation payload ", ": " ++ e, ?_⟩
    rw [utf8Lossy_of_strict payload s hs, String.append_assoc]
  · intro hn
    have hm := replacement_mem_lossy payload hn
    simp only [String.data_append, List.mem_append]
    exact Or.inl (Or.inl (Or.inr hm))

theorem decode_diagnostic_lossy_witness :
    ∃ msg, validate_settings
        (fun _ => (Except.error "bad" : Except String Unit))
        (fun _ => Except.ok ()) [0xFF] = Except.error msg ∧
      (∀ s, utf8Strict [0xFF] = some s → ∃ a b, msg = a ++ s ++ b) ∧
      (utf8Strict [0xFF] = none → replacementChar ∈ msg.data) :=
  decode_diagnostic_lossy (fun _ => (Except.error "bad" : Except String Unit))
    (fun _ => Except.ok ()) [0xFF] "bad" rfl

/-- C10: the fixed compiled-in default protocol version is `V2` — for every
input payload the successful output decodes to `ProtocolVersion.V2`. -/
theorem protocol_version_guest_is_v2 (p : List Nat) :
    ∃ j, protocol_version_guest p = Except.ok j ∧
      ProtocolVersion.fromJson j = Except.ok ProtocolVersion.V2 :=
  ⟨ProtocolVersion.toJson ProtocolVersion.default, rfl, rfl⟩
